import Mathlib

/-!
Shallow embedding of the Netlify serverless function
`netlify/functions/try-hairstyle.js` (model `gemini-2.5-flash-image-preview`)
and of its sibling variant (model `gemini-2.5-flash`), which is line-for-line
identical apart from `MODEL_NAME` and the `generationConfig` object sent to
the upstream API.

Modelling conventions:
* The request body is represented by the outcome of `JSON.parse` on it:
  `Except.error msg` models a thrown parse error with message `msg`, and
  `Except.ok` carries the parsed object restricted to the two
  string-or-absent fields the handler reads (`image_data`, `prompt`).
* JavaScript string truthiness (`!s` holds for `undefined` and for `""`) is
  `strTruthy` on `Option String`.
* The upstream call `ai.models.generateContent` is a parameter
  `generateContent : GenerateContentRequest → Except String ApiResponse`;
  `Except.error msg` models a thrown exception with message `msg`.
* The handler returns the HTTP response paired with a `Bool` recording
  whether the upstream call was made.
* The message text of a `TypeError` thrown by the logging statement when it
  dereferences an absent field is runtime-specific; the model fixes one text
  per dereference site.
-/

/-- JavaScript truthiness of a possibly absent string: `undefined` and the
empty string are falsy, every other string is truthy. -/
def strTruthy : Option String → Bool
  | none => false
  | some s => !s.isEmpty

/-- JavaScript `String.prototype.startsWith`, stated structurally on the
character lists so that it evaluates by kernel reduction. -/
def jsStartsWith (s pre : String) : Bool :=
  pre.data.isPrefixOf s.data

/-- An `inlineData` object `{ mimeType, data }`.  `data` is optional because
the code separately checks its truthiness (`!generatedPart.inlineData.data`). -/
structure InlineData where
  mimeType : String
  data : Option String := none
  deriving DecidableEq, Repr

/-- One part of a content object, holding a text field and/or an
`inlineData` field (absent fields are `none`). -/
structure ContentPart where
  text : Option String := none
  inlineData : Option InlineData := none
  deriving DecidableEq, Repr

/-- A candidate's `content` object with its optional `parts` array. -/
structure Content where
  parts : Option (List ContentPart) := none
  deriving DecidableEq, Repr

/-- One entry of the `candidates` array. -/
structure Candidate where
  content : Option Content := none
  deriving DecidableEq, Repr

/-- An upstream API response.  The handler's extractor reads only
`candidates`; `generatedImages` represents the direct image-array response
shape (an image-only generation result) that the spec also names — the code
never reads this field. -/
structure ApiResponse where
  candidates : Option (List Candidate) := none
  generatedImages : Option (List InlineData) := none
  deriving DecidableEq, Repr

/-- The `generationConfig` object of a request; both fields absent models the
empty object literal. -/
structure GenerationConfig where
  responseMimeType : Option String := none
  responseModality : Option (List String) := none
  deriving DecidableEq, Repr

/-- One entry of the request's `contents` array. -/
structure RequestContent where
  parts : List ContentPart
  deriving DecidableEq, Repr

/-- The argument object passed to `ai.models.generateContent`. -/
structure GenerateContentRequest where
  model : String
  contents : List RequestContent
  generationConfig : GenerationConfig
  deriving DecidableEq, Repr

/-- `MODEL_NAME` of `try-hairstyle.js`. -/
def MODEL_NAME : String := "gemini-2.5-flash-image-preview"

/-- `MODEL_NAME` of the sibling variant. -/
def MODEL_NAME_flash : String := "gemini-2.5-flash"

/-- The `generationConfig` sent by `try-hairstyle.js`: response MIME type
`image/png` and both output modalities requested. -/
def previewGenerationConfig : GenerationConfig :=
  { responseMimeType := some "image/png"
    responseModality := some ["TEXT", "IMAGE"] }

/-- The empty `generationConfig` object sent by the sibling variant. -/
def flashGenerationConfig : GenerationConfig := {}

/-- The `fullPrompt` template literal built from the user's prompt. -/
def fullPrompt (prompt : String) : String :=
  "Change the hairstyle and color of the person in the input image to: \"" ++ prompt ++
    "\". Preserve the person's face, features, lighting, and clothing exactly as they are. This is a high-quality, realistic photo manipulation."

/-- The request sent upstream: one content whose parts are the text part
holding the full prompt followed by the PNG image part. -/
def buildRequest (modelName : String) (generationConfig : GenerationConfig)
    (imageData prompt : String) : GenerateContentRequest :=
  { model := modelName
    contents := [⟨[{ text := some (fullPrompt prompt) },
                   { inlineData := some { mimeType := "image/png", data := some imageData } }]⟩]
    generationConfig := generationConfig }

/-- The predicate passed to `.find`:
`p.inlineData && p.inlineData.mimeType.startsWith('image/')`. -/
def isImagePart (p : ContentPart) : Bool :=
  match p.inlineData with
  | some d => jsStartsWith d.mimeType "image/"
  | none => false

/-- `apiResponse.candidates?.[0]?.content?.parts?.find(...)`: optional
chaining, any absent link yields `none`. -/
def findGeneratedPart (apiResponse : ApiResponse) : Option ContentPart :=
  match apiResponse.candidates with
  | none => none
  | some candidates =>
    match candidates.head? with
    | none => none
    | some candidate =>
      match candidate.content with
      | none => none
      | some content =>
        match content.parts with
        | none => none
        | some parts => parts.find? isImagePart

/-- The extraction step as a whole: the guard
`!generatedPart || !generatedPart.inlineData || !generatedPart.inlineData.data`
followed by `base64Image = generatedPart.inlineData.data`. -/
def extractImage (apiResponse : ApiResponse) : Option String :=
  match findGeneratedPart apiResponse with
  | none => none
  | some generatedPart =>
    match generatedPart.inlineData with
    | none => none
    | some inline =>
      match inline.data with
      | none => none
      | some data => if data.isEmpty then none else some data

/-- The parsed JSON body restricted to the two fields the handler reads, each
a string or absent. -/
structure RequestBody where
  image_data : Option String := none
  prompt : Option String := none
  deriving DecidableEq, Repr

/-- A Netlify event: the HTTP method and the outcome of `JSON.parse` on the
body string. -/
structure Event where
  httpMethod : String
  body : Except String RequestBody

/-- A response body: `JSON.stringify` of one of the three object shapes the
handler produces, kept structural. -/
inductive ResponseBody where
  | message : String → ResponseBody
  | error : String → ResponseBody
  | image_data : String → ResponseBody
  deriving DecidableEq, Repr

/-- An HTTP response object as returned by the handler. -/
structure Response where
  statusCode : Nat
  body : ResponseBody
  headers : List (String × String)
  deriving DecidableEq, Repr

/-- The fixed CORS headers object defined at the top of the handler and
attached to every response. -/
def headers : List (String × String) :=
  [("Content-Type", "application/json"),
   ("Access-Control-Allow-Origin", "*"),
   ("Access-Control-Allow-Methods", "POST, OPTIONS"),
   ("Access-Control-Allow-Headers", "Content-Type")]

/-- Modelled message of the `TypeError` thrown by `imageData.length` in the
logging statement when `image_data` is absent (exact text is runtime
specific). -/
def lengthOfUndefinedMsg : String :=
  "Cannot read properties of undefined (reading length)"

/-- Modelled message of the `TypeError` thrown by `prompt.substring(0, 50)`
in the logging statement when `prompt` is absent (exact text is runtime
specific). -/
def substringOfUndefinedMsg : String :=
  "Cannot read properties of undefined (reading substring)"

/-- The generation-failure error message. -/
def generationFailedMsg : String :=
  "AI failed to return an image. Try a different prompt, or ensure the image is clear."

/-- `exports.handler`, parameterized by the model name and generation config
(the only difference between the two source variants), by the
`GEMINI_API_KEY` environment value, and by the upstream call.  Returns the
response paired with whether the upstream call was made. -/
def handlerWith (modelName : String) (generationConfig : GenerationConfig)
    (apiKey : Option String)
    (generateContent : GenerateContentRequest → Except String ApiResponse)
    (event : Event) : Response × Bool :=
  if event.httpMethod = "OPTIONS" then
    ({ statusCode := 200, body := .message "CORS Preflight successful.",
       headers := headers }, false)
  else if event.httpMethod ≠ "POST" then
    ({ statusCode := 405, body := .error "Method Not Allowed. Use POST.",
       headers := headers }, false)
  else if strTruthy apiKey = false then
    ({ statusCode := 500,
       body := .error "Server configuration error: GEMINI_API_KEY not set.",
       headers := headers }, false)
  else
    match event.body with
    | .error message =>
      ({ statusCode := 500,
         body := .error ("Internal Server Error: " ++ message),
         headers := headers }, false)
    | .ok parsed =>
      match parsed.image_data with
      | none =>
        ({ statusCode := 500,
           body := .error ("Internal Server Error: " ++ lengthOfUndefinedMsg),
           headers := headers }, false)
      | some imageData =>
        match parsed.prompt with
        | none =>
          ({ statusCode := 500,
             body := .error ("Internal Server Error: " ++ substringOfUndefinedMsg),
             headers := headers }, false)
        | some prompt =>
          if imageData.isEmpty || prompt.isEmpty then
            ({ statusCode := 400,
               body := .error "Missing required fields: image_data or prompt.",
               headers := headers }, false)
          else
            match generateContent (buildRequest modelName generationConfig imageData prompt) with
            | .error message =>
              ({ statusCode := 500,
                 body := .error ("Internal Server Error: " ++ message),
                 headers := headers }, true)
            | .ok apiResponse =>
              match extractImage apiResponse with
              | none =>
                ({ statusCode := 500, body := .error generationFailedMsg,
                   headers := headers }, true)
              | some base64Image =>
                ({ statusCode := 200, body := .image_data base64Image,
                   headers := headers }, true)

/-- The handler of `netlify/functions/try-hairstyle.js`. -/
def handler :
    Option String → (GenerateContentRequest → Except String ApiResponse) →
      Event → Response × Bool :=
  handlerWith MODEL_NAME previewGenerationConfig

/-- The handler of the sibling variant (`gemini-2.5-flash`). -/
def handler_flash :
    Option String → (GenerateContentRequest → Except String ApiResponse) →
      Event → Response × Bool :=
  handlerWith MODEL_NAME_flash flashGenerationConfig

/-- A part carrying a well-formed image payload: image-typed inline data with
truthy `data`. -/
def wellFormedImagePart (p : ContentPart) : Bool :=
  match p.inlineData with
  | some d => jsStartsWith d.mimeType "image/" && strTruthy d.data
  | none => false

/-- Spec-side predicate: the response contains an image payload somewhere, in
either of the two shapes the spec names (multi-part candidate/content
structure, or direct image array result). -/
def responseHasImagePayload (r : ApiResponse) : Bool :=
  (match r.candidates with
   | some cs =>
     cs.any fun c =>
       match c.content with
       | some content =>
         match content.parts with
         | some parts => parts.any wellFormedImagePart
         | none => false
       | none => false
   | none => false)
  || (match r.generatedImages with
      | some imgs => imgs.any fun d => jsStartsWith d.mimeType "image/" && strTruthy d.data
      | none => false)

/-- Claim C6: for every request with method `OPTIONS` — whatever the model
variant, the credential, the upstream behaviour and the body — the handler
returns HTTP 200 with the preflight message and the permissive CORS headers,
and makes no upstream call (so no body processing happens). -/
theorem claim_C6_options_short_circuits (modelName : String)
    (generationConfig : GenerationConfig) (apiKey : Option String)
    (generateContent : GenerateContentRequest → Except String ApiResponse)
    (body : Except String RequestBody) :
    handlerWith modelName generationConfig apiKey generateContent
        { httpMethod := "OPTIONS", body := body } =
      ({ statusCode := 200, body := .message "CORS Preflight successful.",
         headers := headers }, false) := rfl

/-- Claim C7: for every POST request issued while `GEMINI_API_KEY` is absent,
the handler returns HTTP 500 with the configuration-error body and makes no
upstream call — whatever the model variant, the upstream behaviour and the
body. -/
theorem claim_C7_missing_credential (modelName : String)
    (generationConfig : GenerationConfig)
    (generateContent : GenerateContentRequest → Except String ApiResponse)
    (body : Except String RequestBody) :
    handlerWith modelName generationConfig none generateContent
        { httpMethod := "POST", body := body } =
      ({ statusCode := 500,
         body := .error "Server configuration error: GEMINI_API_KEY not set.",
         headers := headers }, false) := rfl

/-- Claim C8: for every request whose method is neither `POST` nor `OPTIONS`,
the handler returns HTTP 405 with the method-not-allowed body and makes no
upstream call. -/
theorem claim_C8_method_not_allowed (modelName : String)
    (generationConfig : GenerationConfig) (apiKey : Option String)
    (generateContent : GenerateContentRequest → Except String ApiResponse)
    (method : String) (body : Except String RequestBody)
    (h1 : method ≠ "OPTIONS") (h2 : method ≠ "POST") :
    handlerWith modelName generationConfig apiKey generateContent
        { httpMethod := method, body := body } =
      ({ statusCode := 405, body := .error "Method Not Allowed. Use POST.",
         headers := headers }, false) := by
  unfold handlerWith
  simp [h1, h2]

/-- Witness for claim C8: a concrete `GET` request is answered with 405. -/
theorem claim_C8_method_not_allowed_witness :
    handlerWith MODEL_NAME previewGenerationConfig (some "k")
        (fun _ => .error "unused") { httpMethod := "GET", body := .error "x" } =
      ({ statusCode := 405, body := .error "Method Not Allowed. Use POST.",
         headers := headers }, false) :=
  claim_C8_method_not_allowed MODEL_NAME previewGenerationConfig (some "k")
    (fun _ => .error "unused") "GET" (.error "x") (by decide) (by decide)

/-- Claim C1 as stated is violated by the code (code_bug evidence): for the
failing input — a POST request with the credential set and a body that parses
to an object holding only `prompt` (no `image_data` key) — the handler
returns HTTP 500 with an Internal Server Error body, because the logging
statement dereferences `imageData.length` before the presence check, instead
of the HTTP 400 missing-fields response the claim states; no upstream call is
made either way. -/
theorem claim_C1_missing_field_hits_500 :
    handler (some "test-key") (fun _ => .error "unreachable")
        { httpMethod := "POST", body := .ok { prompt := some "bob cut" } } =
      ({ statusCode := 500,
         body := .error ("Internal Server Error: " ++ lengthOfUndefinedMsg),
         headers := headers }, false) := rfl

/-- Claim C10: the two handler variants differ only in the model name and
`generationConfig` they send upstream — the `contents` they build coincide on
every input, and for every request and every fixed upstream outcome the two
handlers produce identical responses and make the upstream call in the same
cases. -/
theorem claim_C10_variants_equivalent :
    (∀ imageData prompt : String,
      (buildRequest MODEL_NAME previewGenerationConfig imageData prompt).contents =
        (buildRequest MODEL_NAME_flash flashGenerationConfig imageData prompt).contents) ∧
    (∀ (apiKey : Option String) (o : Except String ApiResponse) (event : Event),
      handler apiKey (fun _ => o) event = handler_flash apiKey (fun _ => o) event) :=
  ⟨fun _ _ => rfl, fun _ _ _ => rfl⟩

/-- Every branch of the handler attaches the fixed CORS headers object. -/
theorem handlerWith_headers_eq (m : String) (g : GenerationConfig)
    (k : Option String) (u : GenerateContentRequest → Except String ApiResponse)
    (e : Event) : (handlerWith m g k u e).1.headers = headers := by
  unfold handlerWith
  repeat' split
  all_goals rfl

/-- Claim C4: for every request — any method, any body, any credential, any
upstream outcome — the response carries all four fixed headers:
`Content-Type: application/json`, `Access-Control-Allow-Origin: *`,
`Access-Control-Allow-Methods: POST, OPTIONS` and
`Access-Control-Allow-Headers: Content-Type`. -/
theorem claim_C4_cors_headers_always (modelName : String)
    (generationConfig : GenerationConfig) (apiKey : Option String)
    (generateContent : GenerateContentRequest → Except String ApiResponse)
    (event : Event) :
    ("Content-Type", "application/json") ∈
        (handlerWith modelName generationConfig apiKey generateContent event).1.headers ∧
    ("Access-Control-Allow-Origin", "*") ∈
        (handlerWith modelName generationConfig apiKey generateContent event).1.headers ∧
    ("Access-Control-Allow-Methods", "POST, OPTIONS") ∈
        (handlerWith modelName generationConfig apiKey generateContent event).1.headers ∧
    ("Access-Control-Allow-Headers", "Content-Type") ∈
        (handlerWith modelName generationConfig apiKey generateContent event).1.headers := by
  rw [handlerWith_headers_eq]
  refine ⟨?_, ?_, ?_, ?_⟩ <;> simp [headers]

/-- Claim C5: a thrown exception during body parsing (malformed JSON) or
during the upstream call is caught and answered with HTTP 500 and the body
`Internal Server Error: ` followed by the exception's message; the handler
is a total function, so no exception escapes and no stack trace is
returned. -/
theorem claim_C5_exceptions_caught (apiKey : Option String)
    (u : GenerateContentRequest → Except String ApiResponse)
    (parseMsg imageData prompt upstreamMsg : String)
    (hkey : strTruthy apiKey = true)
    (hi : imageData.isEmpty = false) (hp : prompt.isEmpty = false) :
    handler apiKey u { httpMethod := "POST", body := .error parseMsg } =
      ({ statusCode := 500,
         body := .error ("Internal Server Error: " ++ parseMsg),
         headers := headers }, false) ∧
    handler apiKey (fun _ => .error upstreamMsg)
        { httpMethod := "POST",
          body := .ok { image_data := some imageData, prompt := some prompt } } =
      ({ statusCode := 500,
         body := .error ("Internal Server Error: " ++ upstreamMsg),
         headers := headers }, true) := by
  constructor
  · unfold handler handlerWith
    simp [hkey]
  · unfold handler handlerWith
    simp [hkey, hi, hp]

/-- Witness for claim C5: a concrete run of both exception paths. -/
theorem claim_C5_exceptions_caught_witness :
    strTruthy (some "test-key") = true ∧
    String.isEmpty "img" = false ∧ String.isEmpty "bob cut" = false ∧
    (handler (some "test-key") (fun _ => .error "upstream down")
        { httpMethod := "POST", body := .error "Unexpected token" } =
      ({ statusCode := 500,
         body := .error ("Internal Server Error: " ++ "Unexpected token"),
         headers := headers }, false) ∧
    handler (some "test-key") (fun _ => .error "upstream down")
        { httpMethod := "POST",
          body := .ok { image_data := some "img", prompt := some "bob cut" } } =
      ({ statusCode := 500,
         body := .error ("Internal Server Error: " ++ "upstream down"),
         headers := headers }, true)) :=
  ⟨by decide, by decide, by decide,
    claim_C5_exceptions_caught (some "test-key") (fun _ => .error "upstream down")
      "Unexpected token" "img" "bob cut" "upstream down"
      (by decide) (by decide) (by decide)⟩

/-- `List.find?` skips a leading run of elements on which the predicate is
false. -/
theorem find?_append_of_none {α : Type} (p : α → Bool) (pre rest : List α)
    (h : ∀ a ∈ pre, p a = false) :
    (pre ++ rest).find? p = rest.find? p := by
  induction pre with
  | nil => rfl
  | cons a l ih =>
    have ha : p a = false := h a (List.mem_cons_self a l)
    rw [List.cons_append, List.find?_cons, ha]
    exact ih (fun b hb => h b (List.mem_cons_of_mem a hb))

/-- If a response carries no well-formed image payload in either shape, the
extraction step comes up empty. -/
theorem extractImage_eq_none_of_no_payload (r : ApiResponse)
    (h : responseHasImagePayload r = false) : extractImage r = none := by
  unfold responseHasImagePayload at h
  rw [Bool.or_eq_false_iff] at h
  obtain ⟨h1, h2⟩ := h
  unfold extractImage findGeneratedPart
  cases hc : r.candidates with
  | none => rfl
  | some cs =>
    rw [hc] at h1
    dsimp only at h1
    cases cs with
    | nil => rfl
    | cons c cs2 =>
      simp only [List.head?_cons]
      have hcf := (List.any_eq_false.mp h1) c (List.mem_cons_self c cs2)
      cases hct : c.content with
      | none => rfl
      | some content =>
        rw [hct] at hcf
        dsimp only at hcf ⊢
        cases hps : content.parts with
        | none => rfl
        | some parts =>
          rw [hps] at hcf
          dsimp only at hcf ⊢
          cases hf : parts.find? isImagePart with
          | none => rfl
          | some p =>
            dsimp only
            have hmem : p ∈ parts := List.mem_of_find?_eq_some hf
            have himg : isImagePart p = true := List.find?_some hf
            have hpa : parts.any wellFormedImagePart = false := Bool.eq_false_iff.mpr hcf
            have hwf : wellFormedImagePart p = false :=
              Bool.eq_false_iff.mpr (List.any_eq_false.mp hpa p hmem)
            unfold isImagePart at himg
            unfold wellFormedImagePart at hwf
            cases hinl : p.inlineData with
            | none => rw [hinl] at himg
            | some d =>
              rw [hinl] at himg hwf
              dsimp only at himg hwf
              rw [himg] at hwf
              simp only [Bool.true_and] at hwf
              dsimp only
              cases hd : d.data with
              | none => rfl
              | some s =>
                rw [hd] at hwf
                unfold strTruthy at hwf
                simp only [Bool.not_eq_false'] at hwf
                dsimp only
                simp [hwf]

/-- Claim C3: for a POST request with the credential present, non-empty
`image_data` and non-empty `prompt`, against an upstream response in which
the extraction finds a well-formed image-typed inline data part, the handler
returns HTTP 200 whose body `image_data` equals exactly that part's base64
data. -/
theorem claim_C3_success_returns_image (apiKey : Option String)
    (imageData prompt : String) (r : ApiResponse) (c : Candidate)
    (cs : List Candidate) (content : Content) (parts : List ContentPart)
    (p : ContentPart) (d : InlineData) (data : String)
    (hkey : strTruthy apiKey = true)
    (hi : imageData.isEmpty = false) (hp : prompt.isEmpty = false)
    (hc : r.candidates = some (c :: cs)) (hct : c.content = some content)
    (hps : content.parts = some parts)
    (hfind : parts.find? isImagePart = some p)
    (hinl : p.inlineData = some d) (hdata : d.data = some data)
    (hne : data.isEmpty = false) :
    handler apiKey (fun _ => .ok r)
        { httpMethod := "POST",
          body := .ok { image_data := some imageData, prompt := some prompt } } =
      ({ statusCode := 200, body := .image_data data, headers := headers }, true) := by
  have hx : extractImage r = some data := by
    unfold extractImage findGeneratedPart
    rw [hc]
    simp only [List.head?_cons]
    rw [hct]
    dsimp only
    rw [hps]
    dsimp only
    rw [hfind]
    dsimp only
    rw [hinl]
    dsimp only
    rw [hdata]
    simp [hne]
  unfold handler handlerWith
  simp [hkey, hi, hp, hx]

/-- A candidate/content-shaped upstream response with the given parts array
in its only candidate. -/
def candidateResponse (parts : List ContentPart) : ApiResponse :=
  { candidates := some [{ content := some { parts := some parts } }] }

/-- A PNG-typed inline-data part holding the given base64 data. -/
def pngPart (data : String) : ContentPart :=
  { inlineData := some { mimeType := "image/png", data := some data } }

/-- Claim C2 (amended): the extraction searches only the first candidate's
content parts, where it does return the first image-typed inline part
regardless of its position among mixed text and image parts; it does not
handle the direct image array shape, and every upstream response containing
no well-formed image payload — in either shape — is answered with HTTP 500
and the generation-failure message. -/
theorem claim_C2_extraction_amended (apiKey : Option String)
    (imageData prompt data : String) (pre post : List ContentPart)
    (r : ApiResponse)
    (hkey : strTruthy apiKey = true)
    (hi : imageData.isEmpty = false) (hp : prompt.isEmpty = false)
    (hpre : ∀ q ∈ pre, isImagePart q = false)
    (hd : data.isEmpty = false)
    (hr : responseHasImagePayload r = false) :
    handler apiKey (fun _ => .ok (candidateResponse (pre ++ pngPart data :: post)))
        { httpMethod := "POST",
          body := .ok { image_data := some imageData, prompt := some prompt } } =
      ({ statusCode := 200, body := .image_data data, headers := headers }, true) ∧
    handler apiKey (fun _ => .ok r)
        { httpMethod := "POST",
          body := .ok { image_data := some imageData, prompt := some prompt } } =
      ({ statusCode := 500, body := .error generationFailedMsg, headers := headers }, true) := by
  constructor
  · have himg : isImagePart (pngPart data) = true := rfl
    have hx : extractImage (candidateResponse (pre ++ pngPart data :: post)) = some data := by
      simp only [extractImage, findGeneratedPart, candidateResponse, List.head?_cons]
      rw [find?_append_of_none isImagePart pre _ hpre]
      rw [List.find?_cons, himg]
      simp only [pngPart]
      simp [hd]
    unfold handler handlerWith
    simp [hkey, hi, hp, hx]
  · have hx := extractImage_eq_none_of_no_payload r hr
    unfold handler handlerWith
    simp [hkey, hi, hp, hx]

/-- A direct-image-array-shaped upstream response: it carries an image
payload but no `candidates` structure. -/
def directArrayResponse : ApiResponse :=
  { generatedImages := some [{ mimeType := "image/png", data := some "c2-image-bytes" }] }

/-- Counterexample to claim C2 as stated: `directArrayResponse` contains an
image-typed inline data payload (in the direct image array shape the claim
says is handled), yet the extraction finds nothing and the handler answers
HTTP 500 with the generation-failure message instead of returning the
image. -/
theorem claim_C2_counterexample :
    responseHasImagePayload directArrayResponse = true ∧
    extractImage directArrayResponse = none ∧
    handler (some "test-key") (fun _ => .ok directArrayResponse)
        { httpMethod := "POST",
          body := .ok { image_data := some "img", prompt := some "bob cut" } } =
      ({ statusCode := 500, body := .error generationFailedMsg, headers := headers }, true) :=
  ⟨by decide, rfl, rfl⟩

/-- Witness for claim C2 (amended), at a concrete request: a mixed
text-then-image parts array yields 200 with the image's data, and an empty
candidates array yields the generation-failure 500. -/
theorem claim_C2_extraction_amended_witness :
    (strTruthy (some "k") = true ∧ String.isEmpty "img" = false ∧
      String.isEmpty "bob cut" = false ∧
      (∀ q ∈ [({ text := some "thinking" } : ContentPart)], isImagePart q = false) ∧
      String.isEmpty "b64" = false ∧
      responseHasImagePayload { candidates := some [] } = false) ∧
    (handler (some "k")
        (fun _ => .ok (candidateResponse ([{ text := some "thinking" }] ++ pngPart "b64" :: [])))
        { httpMethod := "POST",
          body := .ok { image_data := some "img", prompt := some "bob cut" } } =
      ({ statusCode := 200, body := .image_data "b64", headers := headers }, true) ∧
    handler (some "k") (fun _ => .ok { candidates := some [] })
        { httpMethod := "POST",
          body := .ok { image_data := some "img", prompt := some "bob cut" } } =
      ({ statusCode := 500, body := .error generationFailedMsg, headers := headers }, true)) :=
  ⟨⟨by decide, by decide, by decide, by decide, by decide, by decide⟩,
    claim_C2_extraction_amended (some "k") "img" "bob cut" "b64"
      [{ text := some "thinking" }] [] { candidates := some [] }
      (by decide) (by decide) (by decide) (by decide) (by decide) (by decide)⟩

/-- Witness for claim C3, at a concrete request: a stubbed upstream response
whose parts are a text part followed by a PNG part with data `b64` yields
HTTP 200 with body `image_data = "b64"`. -/
theorem claim_C3_success_returns_image_witness :
    (strTruthy (some "k") = true ∧ String.isEmpty "img" = false ∧
      String.isEmpty "bob cut" = false ∧
      (candidateResponse [{ text := some "sure" }, pngPart "b64"]).candidates =
        some [{ content := some { parts := some [{ text := some "sure" }, pngPart "b64"] } }] ∧
      List.find? isImagePart [{ text := some "sure" }, pngPart "b64"] = some (pngPart "b64") ∧
      (pngPart "b64").inlineData = some { mimeType := "image/png", data := some "b64" } ∧
      String.isEmpty "b64" = false) ∧
    handler (some "k") (fun _ => .ok (candidateResponse [{ text := some "sure" }, pngPart "b64"]))
        { httpMethod := "POST",
          body := .ok { image_data := some "img", prompt := some "bob cut" } } =
      ({ statusCode := 200, body := .image_data "b64", headers := headers }, true) :=
  ⟨⟨by decide, by decide, by decide, by decide, by decide, by decide, by decide⟩,
    claim_C3_success_returns_image (some "k") "img" "bob cut"
      (candidateResponse [{ text := some "sure" }, pngPart "b64"])
      { content := some { parts := some [{ text := some "sure" }, pngPart "b64"] } } []
      { parts := some [{ text := some "sure" }, pngPart "b64"] }
      [{ text := some "sure" }, pngPart "b64"] (pngPart "b64")
      { mimeType := "image/png", data := some "b64" } "b64"
      (by decide) (by decide) (by decide) (by decide) (by decide) (by decide)
      (by decide) (by decide) (by decide) (by decide)⟩

/-- Claim C9: when the body parses but the `image_data` key or the `prompt`
key is absent, the handler answers HTTP 500 with a message beginning
`Internal Server Error: ` (the logging statement dereferences the absent
field before the presence check) and makes no upstream call; and an HTTP 400
response can only arise when the body parsed with both keys present and at
least one of them the empty string. -/
theorem claim_C9_validation_order :
    (∀ (apiKey : Option String) (b : RequestBody)
        (u : GenerateContentRequest → Except String ApiResponse),
      strTruthy apiKey = true → (b.image_data = none ∨ b.prompt = none) →
      ∃ s, handler apiKey u { httpMethod := "POST", body := .ok b } =
        ({ statusCode := 500,
           body := .error ("Internal Server Error: " ++ s),
           headers := headers }, false)) ∧
    (∀ (apiKey : Option String)
        (u : GenerateContentRequest → Except String ApiResponse) (event : Event),
      (handler apiKey u event).1.statusCode = 400 →
      ∃ b i p, event.body = .ok b ∧ b.image_data = some i ∧ b.prompt = some p ∧
        (i.isEmpty || p.isEmpty) = true) := by
  constructor
  · intro apiKey b u hkey h
    obtain ⟨i, p⟩ := b
    rcases i with _ | i
    · exact ⟨lengthOfUndefinedMsg, by unfold handler handlerWith; simp [hkey]⟩
    · rcases p with _ | p
      · exact ⟨substringOfUndefinedMsg, by unfold handler handlerWith; simp [hkey]⟩
      · rcases h with h | h <;> simp at h
  · intro apiKey u event h400
    obtain ⟨m, body⟩ := event
    unfold handler handlerWith at h400
    repeat' split at h400
    all_goals simp_all
